import Mathlib

/-!
Verification development for the cocaine worker runtime
(`cocaine/worker/worker.py`, `cocaine/worker/request.py`).

The Python source is shallowly embedded: pure state manipulation becomes
explicit state passing on `WState`, the per-session request stream becomes a
queue value, and code that may raise returns `Except`.  Components of the
repository that are imported but whose files are not part of the sources here
(`response.py`, `message.py`, `asyncqueue.py`, the `CocaineErrno` constants)
are modelled from the specification and marked as such.
-/

namespace Cocaine

/-! ## Request stream (request.py)

`Stream` wraps an `AsyncQueue`.  The queue itself (`detail/asyncqueue.py`) is
not among the sources; it is modelled from the spec: a FIFO where
`put_nowait` appends and never blocks, and `get` yields the front item.
Items are the values `push`/`done`/`error` enqueue: raw data (`RItem.chunk`),
a `RequestError` (`RItem.reqError`) or a `ChokeEvent` (`RItem.choke`). -/

inductive RItem where
  | chunk (data : String)
  | reqError (code : Nat) (reason : String)
  | choke
deriving DecidableEq

structure Stream where
  queue : List RItem
  /-- `self._done = False` in `Stream.__init__`; the flag is never consulted
  nor updated anywhere else in `request.py`. -/
  doneFlag : Bool
deriving DecidableEq

def Stream.init : Stream := ⟨[], false⟩

/-- `Stream.push(item)`: `self._queue.put_nowait(item)`. -/
def Stream.push (s : Stream) (data : String) : Stream :=
  { s with queue := s.queue ++ [RItem.chunk data] }

/-- `Stream.done()`: `self._queue.put_nowait(ChokeEvent())`. -/
def Stream.done (s : Stream) : Stream :=
  { s with queue := s.queue ++ [RItem.choke] }

/-- `Stream.error(errnumber, reason)`:
`self._queue.put_nowait(RequestError(errnumber, reason))`. -/
def Stream.error (s : Stream) (code : Nat) (reason : String) : Stream :=
  { s with queue := s.queue ++ [RItem.reqError code reason] }

/-- Outcome of one `Stream.get()` call: the next queued item is returned if
it is plain data and raised if it is an `Exception`
(`if isinstance(res, Exception): raise res`). -/
inductive ReadRes where
  | value (data : String)
  | raisedReqError (code : Nat) (reason : String)
  | raisedChoke
deriving DecidableEq

/-- `Stream.get()`: take the front of the queue; `none` means the call blocks
(no item available yet). -/
def Stream.get (s : Stream) : Option (ReadRes × Stream) :=
  match s.queue with
  | [] => none
  | i :: rest =>
      some (match i with
            | RItem.chunk d => ReadRes.value d
            | RItem.reqError c r => ReadRes.raisedReqError c r
            | RItem.choke => ReadRes.raisedChoke,
            { s with queue := rest })

/-- `RequestStream.read` just delegates to `Stream.get`. -/
def Stream.read (s : Stream) : Option (ReadRes × Stream) := s.get

/-- `RequestStream.close` just delegates to `Stream.done`. -/
def Stream.closeReq (s : Stream) : Stream := s.done

/-- Perform `n` successive `Stream.get` calls, stopping early if the queue
runs dry. -/
def Stream.getN (s : Stream) : Nat → List ReadRes × Stream
  | 0 => ([], s)
  | n + 1 =>
      match s.get with
      | none => ([], s)
      | some (r, s1) =>
          let p := s1.getN n
          (r :: p.1, p.2)

/-- The read result produced by consuming a given queued item. -/
def itemRes : RItem → ReadRes
  | RItem.chunk d => ReadRes.value d
  | RItem.reqError c r => ReadRes.raisedReqError c r
  | RItem.choke => ReadRes.raisedChoke

/-! ## Error codes

Modelled from the spec: `cocaine/common.py` (`CocaineErrno`) is not among the
sources.  Only distinctness of the three codes the worker emits matters
here; the numeric values stand in for the platform's published ones. -/

def EUNCAUGHTEXCEPTION : Nat := 1
def ENOHANDLER : Nat := 2
def EINVFAILED : Nat := 3

/-! ## Response stream

Modelled from the spec: `cocaine/worker/response.py` is not among the
sources.  Spec §3: `write(bytes)` emits CHUNK; `error(code, reason)` emits
ERROR and marks closed; `close()` emits CHOKE and marks closed; at most one
terminal (error or close) is emitted per session, subsequent calls are
no-ops; `write` on a closed stream is a no-op. -/

inductive ROut where
  | wchunk (data : String)
  | werror (code : Nat) (reason : String)
  | wclose
deriving DecidableEq

structure RespStream where
  closed : Bool
  emitted : List ROut
deriving DecidableEq

def RespStream.init : RespStream := ⟨false, []⟩

def RespStream.write (r : RespStream) (data : String) : RespStream :=
  if r.closed then r else { r with emitted := r.emitted ++ [ROut.wchunk data] }

def RespStream.error (r : RespStream) (code : Nat) (reason : String) : RespStream :=
  if r.closed then r
  else { closed := true, emitted := r.emitted ++ [ROut.werror code reason] }

def RespStream.close (r : RespStream) : RespStream :=
  if r.closed then r
  else { closed := true, emitted := r.emitted ++ [ROut.wclose] }

/-- Number of terminal frames (ERROR or CHOKE) among the emitted ones. -/
def terminalCount (l : List ROut) : Nat :=
  (l.filter fun o => match o with
    | ROut.wchunk _ => false
    | ROut.werror _ _ => true
    | ROut.wclose => true).length

/-- One operation a handler may perform on its response stream. -/
inductive HOp where
  | hwrite (data : String)
  | herror (code : Nat) (reason : String)
  | hclose
deriving DecidableEq

def applyHOp (r : RespStream) : HOp → RespStream
  | HOp.hwrite d => r.write d
  | HOp.herror c m => r.error c m
  | HOp.hclose => r.close

def applyHOps (r : RespStream) : List HOp → RespStream
  | [] => r
  | op :: ops => applyHOps (applyHOp r op) ops

/-- The completion trap attached in `BasicWorker._dispatch_invoke`
(worker.py lines 170-176): on handler completion, `f.result()` re-raises a
handler failure; on success the response is closed if not already closed;
on failure `response.error(EUNCAUGHTEXCEPTION, str(err))` is called.  The
handler outcome is `Except.error e` when the handler task raised `e`. -/
def trap (outcome : Except String Unit) (response : RespStream) : RespStream :=
  match outcome with
  | Except.ok _ => if response.closed then response else response.close
  | Except.error e => response.error EUNCAUGHTEXCEPTION e

/-! ## Worker state (worker.py)

`WState` collects the mutable attributes of `BasicWorker` that the claims
are about: the v1 session counter `max_session`, the session table
`sessions`, the set of registered event names (`_events`; handler bodies are
not part of the dispatch logic), the event-loop disown timer's armed state,
whether the watchdog `DisownTimer` has been notified, the outbound frames
written to the pipe, and whether `_stop` has run. -/

inductive OutMsg where
  | heartbeatOut
  | errorOut (session code : Nat) (reason : String)
  | terminateOut (code : Nat) (reason : String)
deriving DecidableEq

/-- Observable dispatch events, recording which `_dispatch_*` method ran and
which session-table mutations occurred. -/
inductive Evt where
  | dispHeartbeat
  | dispTerminate
  | dispInvoke (session : Nat)
  | dispChunk (session : Nat)
  | dispChoke (session : Nat)
  | dispError (session : Nat)
  | created (session : Nat)
  | removed (session : Nat)
deriving DecidableEq

structure WState where
  maxSession : Nat
  sessions : List (Nat × Stream)
  handlers : List String
  disownArmed : Bool
  watchdogNotified : Bool
  outbox : List OutMsg
  stopped : Bool
deriving DecidableEq

/-- `BasicWorker.__init__` (relevant parts): empty session table, handler
table as registered by `on`, timers not yet started. -/
def initWorker (handlers : List String) : WState :=
  ⟨0, [], handlers, false, false, [], false⟩

/-- Session-table lookup (`self.sessions[s]` / `.get`). -/
def slookup : List (Nat × Stream) → Nat → Option Stream
  | [], _ => none
  | (k, v) :: rest, s => if k = s then some v else slookup rest s

/-- Session-table assignment (`self.sessions[s] = request`). -/
def sinsert : List (Nat × Stream) → Nat → Stream → List (Nat × Stream)
  | [], s, v => [(s, v)]
  | (k, w) :: rest, s, v =>
      if k = s then (s, v) :: rest else (k, w) :: sinsert rest s v

/-- Session-table removal (`self.sessions.pop(s, None)`). -/
def sremove : List (Nat × Stream) → Nat → List (Nat × Stream)
  | [], _ => []
  | (k, w) :: rest, s => if k = s then rest else (k, w) :: sremove rest s

/-! ## Timers and liveness (worker.py) -/

/-- `self.disown_timer.start()`. -/
def disownTimerStart (w : WState) : WState := { w with disownArmed := true }

/-- `self.disown_timer.stop()`. -/
def disownTimerStop (w : WState) : WState := { w with disownArmed := false }

/-- `self.threaded_disown_timer.notify()` (thread-safe reset of the
watchdog deadline). -/
def watchdogNotify (w : WState) : WState := { w with watchdogNotified := true }

/-- `self.send_heartbeat()`: writes one HEARTBEAT frame to the pipe. -/
def sendHeartbeatMsg (w : WState) : WState :=
  { w with outbox := w.outbox ++ [OutMsg.heartbeatOut] }

/-- `BasicWorker.do_heartbeat` (worker.py 233-236): start the disown timer,
then send a HEARTBEAT. -/
def do_heartbeat (w : WState) : WState := sendHeartbeatMsg (disownTimerStart w)

/-- `BasicWorker._dispatch_heartbeat` (worker.py 149-152): notify the
watchdog thread, then stop the event-loop disown timer. -/
def dispatchHeartbeat (w : WState) : WState := disownTimerStop (watchdogNotify w)

/-- `BasicWorker._dispatch_terminate` → `terminate`: send a TERMINATE frame,
then `_stop` (stop the watchdog and the io loop). -/
def dispatchTerminate (w : WState) (code : Nat) (reason : String) : WState :=
  { w with outbox := w.outbox ++ [OutMsg.terminateOut code reason], stopped := true }

/-! ## Per-session dispatch (worker.py) -/

/-- Injection point for an exception during `_dispatch_invoke`, reflecting
Python semantics where any call may raise: `ctorRaise` stands for the
`RequestStream`/`ResponseStream` constructors (lines 160-161, *outside* the
`try`) raising; `startRaise` stands for starting the handler task
(`event_handler(...)` / `fallback_handler(...)` / `add_future`, inside the
`try`) raising; `noRaise` is the normal path. -/
inductive InvokeFail where
  | ctorRaise
  | startRaise
  | noRaise
deriving DecidableEq

/-- `BasicWorker._dispatch_invoke` (worker.py 158-181).  The result is
`Except.error ()` when an exception escapes the method (only possible from
the stream constructors, which precede the `try`).  Effects, in source
order: look up the event's handler; if registered, insert a fresh request
stream into the session table and start the handler; otherwise start the
fallback handler, whose body immediately runs
`response.error(ENOHANDLER, ...)`.  If starting raised, the `except` clause
runs `response.error(EINVFAILED, ...)`; nothing is rolled back. -/
def dispatchInvoke (fail : InvokeFail) (w : WState) (session : Nat)
    (event : String) : Except Unit (WState × List Evt) :=
  match fail with
  | InvokeFail.ctorRaise => Except.error ()
  | InvokeFail.startRaise =>
      let registered := event ∈ w.handlers
      let sessions1 := if registered then sinsert w.sessions session Stream.init
                       else w.sessions
      Except.ok
        ({ w with sessions := sessions1,
                  outbox := w.outbox ++
                    [OutMsg.errorOut session EINVFAILED "failed to invoke"] },
         Evt.dispInvoke session ::
           (if registered then [Evt.created session] else []))
  | InvokeFail.noRaise =>
      if event ∈ w.handlers then
        Except.ok ({ w with sessions := sinsert w.sessions session Stream.init },
                   [Evt.dispInvoke session, Evt.created session])
      else
        Except.ok
          ({ w with outbox := w.outbox ++
               [OutMsg.errorOut session ENOHANDLER
                  ("there is no handler for event " ++ event)] },
           [Evt.dispInvoke session])

/-- `BasicWorker._dispatch_chunk` (worker.py 182-188): push the data onto
the session's request stream; a missing session is logged and dropped. -/
def dispatchChunk (w : WState) (session : Nat) (data : String) :
    WState × List Evt :=
  match slookup w.sessions session with
  | some strm =>
      ({ w with sessions := sinsert w.sessions session (strm.push data) },
       [Evt.dispChunk session])
  | none => (w, [Evt.dispChunk session])

/-- `BasicWorker._dispatch_choke` (worker.py 190-194): pop the session; if
it was present, close its request stream. -/
def dispatchChoke (w : WState) (session : Nat) : WState × List Evt :=
  match slookup w.sessions session with
  | some _ =>
      ({ w with sessions := sremove w.sessions session },
       [Evt.dispChoke session, Evt.removed session])
  | none => (w, [Evt.dispChoke session])

/-- `BasicWorker._dispatch_error` (worker.py 196-202): pop the session; if
it was present, `session.error(errno, reason)` then `session.close()`.  The
middle component is the popped stream after those two calls: the table no
longer holds it, but the handler still does, so this is the object the
handler's later reads observe. -/
def dispatchError (w : WState) (session code : Nat) (reason : String) :
    WState × Option Stream × List Evt :=
  match slookup w.sessions session with
  | some strm =>
      ({ w with sessions := sremove w.sessions session },
       some ((strm.error code reason).done),
       [Evt.dispError session, Evt.removed session])
  | none => (w, none, [Evt.dispError session])

/-! ## Wire messages -/

/-- One element of a message payload array (a decoded msgpack value; the
worker only ever reads strings and integers out of payloads). -/
inductive Arg where
  | argStr (s : String)
  | argNat (n : Nat)
deriving DecidableEq

/-- Read payload element `i` as a string (`msg.event`, `msg.data`,
`msg.reason`). -/
def getArgStr (p : List Arg) (i : Nat) : String :=
  match p.get? i with
  | some (Arg.argStr s) => s
  | _ => ""

/-- Read payload element `i` as an integer (`msg.errno`). -/
def getArgNat (p : List Arg) (i : Nat) : Nat :=
  match p.get? i with
  | some (Arg.argNat n) => n
  | _ => 0

/-- v1 type ids.  Modelled from the spec (§4.1): `message.py` (`RPCv1`) is
not among the sources; the spec fixes
HANDSHAKE=0, HEARTBEAT=1, TERMINATE=2, INVOKE=3, WRITE=4, ERROR=5, CLOSE=6. -/
def RPCv1.HANDSHAKE : Nat := 0
def RPCv1.HEARTBEAT : Nat := 1
def RPCv1.TERMINATE : Nat := 2
def RPCv1.INVOKE : Nat := 3
def RPCv1.WRITE : Nat := 4
def RPCv1.ERROR : Nat := 5
def RPCv1.CLOSE : Nat := 6

/-- A decoded v1 frame `[session, type_id, payload]`. -/
structure Msg1 where
  session : Nat
  typeId : Nat
  payload : List Arg
deriving DecidableEq

/-- `WorkerV1.feed_message` (worker.py 308-332). -/
def feedMessageV1 (w : WState) (m : Msg1) : WState × List Evt :=
  if m.session = 1 then
    if m.typeId = RPCv1.HEARTBEAT then
      (dispatchHeartbeat w, [Evt.dispHeartbeat])
    else if m.typeId = RPCv1.TERMINATE then
      (dispatchTerminate w (getArgNat m.payload 0) (getArgStr m.payload 1),
       [Evt.dispTerminate])
    else (w, [])
  else if w.maxSession < m.session then
    if m.typeId = RPCv1.INVOKE then
      match dispatchInvoke InvokeFail.noRaise { w with maxSession := m.session }
              m.session (getArgStr m.payload 0) with
      | Except.ok r => r
      | Except.error _ => ({ w with maxSession := m.session }, [])
    else
      -- log.error("new session %d must start from invoke"); drop
      (w, [])
  else if m.typeId = RPCv1.WRITE then
    dispatchChunk w m.session (getArgStr m.payload 0)
  else if m.typeId = RPCv1.CLOSE then
    dispatchChoke w m.session
  else if m.typeId = RPCv1.ERROR then
    let r := dispatchError w m.session (getArgNat m.payload 0) (getArgStr m.payload 1)
    (r.1, r.2.2)
  else (w, [])

/-- Feeding a list of decoded v1 frames in order, collecting the dispatch
events. -/
def runV1 (w : WState) : List Msg1 → WState × List Evt
  | [] => (w, [])
  | m :: ms =>
      let p := feedMessageV1 w m
      let q := runV1 p.1 ms
      (q.1, p.2 ++ q.2)

/-- v0 message kinds (`RPC` in `message.py`, not among the sources; the kind
set is fixed by the dispatcher dictionary in `WorkerV0.__init__` and by
§3 of the spec). -/
inductive RPC0 where
  | handshake
  | heartbeat
  | terminate
  | invoke
  | chunk
  | errorK
  | choke
deriving DecidableEq

/-- A decoded v0 message after `Message.initialize`: kind, session, args. -/
structure Msg0 where
  kind : RPC0
  session : Nat
  payload : List Arg
deriving DecidableEq

/-- `WorkerV0.feed_message` (worker.py 279-282) together with the
`_dispatcher` dictionary from `WorkerV0.__init__` (251-258).  The dictionary
has no entry for `RPC.ERROR` (that line is commented out) nor for
`RPC.HANDSHAKE`, so for those kinds `self._dispatcher.get(message.id)`
returns `None` and `callback(message)` raises: the result is
`Except.error ()`. -/
def feedMessageV0 (w : WState) (m : Msg0) : Except Unit (WState × List Evt) :=
  match m.kind with
  | RPC0.heartbeat => Except.ok (dispatchHeartbeat w, [Evt.dispHeartbeat])
  | RPC0.terminate =>
      Except.ok (dispatchTerminate w (getArgNat m.payload 0) (getArgStr m.payload 1),
                 [Evt.dispTerminate])
  | RPC0.invoke =>
      dispatchInvoke InvokeFail.noRaise w m.session (getArgStr m.payload 0)
  | RPC0.chunk => Except.ok (dispatchChunk w m.session (getArgStr m.payload 0))
  | RPC0.choke => Except.ok (dispatchChoke w m.session)
  | RPC0.errorK => Except.error ()
  | RPC0.handshake => Except.error ()

/-- `BasicWorker.on_message` (worker.py 139-147) over already-decoded v0
messages: each message is fed through `feed_message`; an exception raised
there is caught (`log.warn`) and processing continues with the next
message. -/
def runV0 (w : WState) : List Msg0 → WState × List Evt
  | [] => (w, [])
  | m :: ms =>
      match feedMessageV0 w m with
      | Except.ok p =>
          let q := runV0 p.1 ms
          (q.1, p.2 ++ q.2)
      | Except.error _ => runV0 w ms

/-! ## Constructor guard (worker.py 49-54) -/

/-- `BasicWorker.__init__` raises
`ValueError("heartbeat timeout must be greater than disown")` exactly when
`heartbeat_timeout < disown_timeout`.  Timeouts are numbers of seconds. -/
def basicWorkerInitRaises (disown_timeout heartbeat_timeout : Int) : Bool :=
  decide (heartbeat_timeout < disown_timeout)

/-! ## Predicates used by the statements -/

/-- Invariant tying a response stream's `closed` flag to the number of
terminal frames it has emitted. -/
def RespInv (r : RespStream) : Prop :=
  terminalCount r.emitted = (if r.closed then 1 else 0)

/-- Every session id in the table is bounded by `max_session` (v1). -/
def SessInv (w : WState) : Prop :=
  ∀ q ∈ w.sessions, q.1 ≤ w.maxSession

/-- No session id is reused once removed: in the event trace, no
`created s` ever follows a `removed s`. -/
def NoReuse (evts : List Evt) : Prop :=
  ∀ a b s, evts = a ++ Evt.removed s :: b → Evt.created s ∉ b

end Cocaine

namespace Cocaine

/-! ## Helper lemmas -/

theorem slookup_sinsert (l : List (Nat × Stream)) (s : Nat) (v : Stream) :
    slookup (sinsert l s v) s = some v := by
  induction l with
  | nil => simp [sinsert, slookup]
  | cons q rest ih =>
      by_cases h : q.1 = s
      · simp [sinsert, slookup, h]
      · simp only [sinsert, slookup]
        rw [if_neg h, slookup, if_neg h]
        exact ih

theorem mem_sinsert {l : List (Nat × Stream)} {k : Nat} {v : Stream}
    {q : Nat × Stream} (h : q ∈ sinsert l k v) : q = (k, v) ∨ q ∈ l := by
  induction l with
  | nil => simpa [sinsert] using h
  | cons e rest ih =>
      by_cases he : e.1 = k
      · rw [sinsert, if_pos he] at h
        rcases List.mem_cons.mp h with h1 | h1
        · exact Or.inl h1
        · exact Or.inr (List.mem_cons_of_mem e h1)
      · rw [sinsert, if_neg he] at h
        rcases List.mem_cons.mp h with h1 | h1
        · exact Or.inr (h1 ▸ List.mem_cons_self e rest)
        · rcases ih h1 with h2 | h2
          · exact Or.inl h2
          · exact Or.inr (List.mem_cons_of_mem e h2)

theorem mem_sremove {l : List (Nat × Stream)} {k : Nat} {q : Nat × Stream}
    (h : q ∈ sremove l k) : q ∈ l := by
  induction l with
  | nil => simp [sremove] at h
  | cons e rest ih =>
      by_cases he : e.1 = k
      · rw [sremove, if_pos he] at h
        exact List.mem_cons_of_mem e h
      · rw [sremove, if_neg he] at h
        rcases List.mem_cons.mp h with h1 | h1
        · exact h1 ▸ List.mem_cons_self e rest
        · exact List.mem_cons_of_mem e (ih h1)

theorem slookup_mem {l : List (Nat × Stream)} {k : Nat} {v : Stream}
    (h : slookup l k = some v) : (k, v) ∈ l := by
  induction l with
  | nil => simp [slookup] at h
  | cons e rest ih =>
      by_cases he : e.1 = k
      · rw [slookup, if_pos he] at h
        cases h
        refine List.mem_cons.mpr (Or.inl ?_)
        obtain ⟨a, b⟩ := e
        simp only at he
        simp [he]
      · rw [slookup, if_neg he] at h
        exact List.mem_cons_of_mem e (ih h)

theorem foldl_push_queue (ds : List String) (s : Stream) :
    ds.foldl Stream.push s = ⟨s.queue ++ ds.map RItem.chunk, s.doneFlag⟩ := by
  induction ds generalizing s with
  | nil => simp
  | cons d ds ih =>
      rw [List.foldl_cons, ih]
      simp [Stream.push]

theorem get_cons (i : RItem) (rest : List RItem) (f : Bool) :
    (Stream.mk (i :: rest) f).get = some (itemRes i, Stream.mk rest f) := by
  cases i <;> rfl

theorem getN_full_drain (q : List RItem) (f : Bool) :
    (Stream.mk q f).getN q.length = (q.map itemRes, Stream.mk [] f) := by
  induction q with
  | nil => rfl
  | cons i rest ih =>
      simp only [List.length_cons, Stream.getN, get_cons, ih, List.map_cons]

theorem terminalCount_append (l1 l2 : List ROut) :
    terminalCount (l1 ++ l2) = terminalCount l1 + terminalCount l2 := by
  simp [terminalCount, List.filter_append]

theorem respInv_init : RespInv RespStream.init := rfl

theorem terminalCount_chunk (d : String) : terminalCount [ROut.wchunk d] = 0 := rfl

theorem terminalCount_error (c : Nat) (m : String) :
    terminalCount [ROut.werror c m] = 1 := rfl

theorem terminalCount_close : terminalCount [ROut.wclose] = 1 := rfl

theorem respInv_applyHOp (r : RespStream) (op : HOp) (h : RespInv r) :
    RespInv (applyHOp r op) := by
  unfold RespInv at h ⊢
  cases op with
  | hwrite d =>
      by_cases hc : r.closed
      · simpa [applyHOp, RespStream.write, hc] using h
      · have h0 : terminalCount r.emitted = 0 := by simpa [hc] using h
        simp [applyHOp, RespStream.write, hc, terminalCount_append, h0,
              terminalCount_chunk]
  | herror c m =>
      by_cases hc : r.closed
      · simpa [applyHOp, RespStream.error, hc] using h
      · have h0 : terminalCount r.emitted = 0 := by simpa [hc] using h
        simp [applyHOp, RespStream.error, hc, terminalCount_append, h0,
              terminalCount_error]
  | hclose =>
      by_cases hc : r.closed
      · simpa [applyHOp, RespStream.close, hc] using h
      · have h0 : terminalCount r.emitted = 0 := by simpa [hc] using h
        simp [applyHOp, RespStream.close, hc, terminalCount_append, h0,
              terminalCount_close]

theorem respInv_applyHOps (ops : List HOp) (r : RespStream) (h : RespInv r) :
    RespInv (applyHOps r ops) := by
  induction ops generalizing r with
  | nil => exact h
  | cons op ops ih => exact ih (applyHOp r op) (respInv_applyHOp r op h)

theorem trap_closes (outcome : Except String Unit) (r : RespStream)
    (h : RespInv r) :
    terminalCount (trap outcome r).emitted = 1 ∧ (trap outcome r).closed = true := by
  unfold RespInv at h
  cases outcome with
  | ok u =>
      by_cases hc : r.closed
      · simpa [trap, hc] using h
      · have h0 : terminalCount r.emitted = 0 := by simpa [hc] using h
        simp [trap, RespStream.close, hc, terminalCount_append, h0,
              terminalCount_close]
  | error e =>
      by_cases hc : r.closed
      · simpa [trap, RespStream.error, hc] using h
      · have h0 : terminalCount r.emitted = 0 := by simpa [hc] using h
        simp [trap, RespStream.error, hc, terminalCount_append, h0,
              terminalCount_error]

theorem append_cons_split {α : Type} {l1 l2 a b : List α} {x : α}
    (h : l1 ++ l2 = a ++ x :: b) :
    (∃ b1, l1 = a ++ x :: b1 ∧ b = b1 ++ l2) ∨
    (∃ a1, a = l1 ++ a1 ∧ l2 = a1 ++ x :: b) := by
  induction l1 generalizing a with
  | nil =>
      right
      exact ⟨a, by simp, by simpa using h⟩
  | cons y l1 ih =>
      cases a with
      | nil =>
          simp only [List.cons_append, List.nil_append, List.cons.injEq] at h
          exact Or.inl ⟨l1, by simp [h.1], h.2.symm⟩
      | cons z a2 =>
          simp only [List.cons_append, List.cons.injEq] at h
          rcases ih h.2 with ⟨b1, h1, h2⟩ | ⟨a1, h1, h2⟩
          · exact Or.inl ⟨b1, by simp [h.1, h1], h2⟩
          · exact Or.inr ⟨a1, by simp [h.1, h1], h2⟩

theorem dispatchChunk_step (w : WState) (sid : Nat) (d : String)
    (hinv : SessInv w) :
    (dispatchChunk w sid d).1.maxSession = w.maxSession ∧
    SessInv (dispatchChunk w sid d).1 ∧
    (∀ s, Evt.created s ∉ (dispatchChunk w sid d).2) ∧
    (∀ s, Evt.removed s ∉ (dispatchChunk w sid d).2) := by
  cases hl : slookup w.sessions sid with
  | none =>
      refine ⟨by simp [dispatchChunk, hl], ?_, ?_, ?_⟩ <;>
        simp [dispatchChunk, hl, hinv]
  | some strm =>
      refine ⟨by simp [dispatchChunk, hl], ?_, ?_, ?_⟩
      · intro q hq
        simp only [dispatchChunk, hl] at hq ⊢
        rcases mem_sinsert hq with h1 | h1
        · have := hinv _ (slookup_mem hl)
          simpa [h1] using this
        · exact hinv q h1
      · intro s
        simp [dispatchChunk, hl]
      · intro s
        simp [dispatchChunk, hl]

theorem dispatchChoke_step (w : WState) (sid : Nat) (hinv : SessInv w) :
    (dispatchChoke w sid).1.maxSession = w.maxSession ∧
    SessInv (dispatchChoke w sid).1 ∧
    (∀ s, Evt.created s ∉ (dispatchChoke w sid).2) ∧
    (∀ s, Evt.removed s ∈ (dispatchChoke w sid).2 → s ≤ w.maxSession) := by
  cases hl : slookup w.sessions sid with
  | none =>
      refine ⟨by simp [dispatchChoke, hl], ?_, ?_, ?_⟩ <;>
        simp [dispatchChoke, hl, hinv]
  | some strm =>
      refine ⟨by simp [dispatchChoke, hl], ?_, ?_, ?_⟩
      · intro q hq
        simp only [dispatchChoke, hl] at hq ⊢
        exact hinv q (mem_sremove hq)
      · intro s
        simp [dispatchChoke, hl]
      · intro s hs
        simp only [dispatchChoke, hl, List.mem_cons, List.mem_singleton] at hs
        rcases hs with h1 | h1 | h1
        · cases h1
        · injection h1 with h2
          subst h2
          exact hinv _ (slookup_mem hl)
        · simp at h1

theorem dispatchError_step (w : WState) (sid c : Nat) (rsn : String)
    (hinv : SessInv w) :
    (dispatchError w sid c rsn).1.maxSession = w.maxSession ∧
    SessInv (dispatchError w sid c rsn).1 ∧
    (∀ s, Evt.created s ∉ (dispatchError w sid c rsn).2.2) ∧
    (∀ s, Evt.removed s ∈ (dispatchError w sid c rsn).2.2 → s ≤ w.maxSession) := by
  cases hl : slookup w.sessions sid with
  | none =>
      refine ⟨by simp [dispatchError, hl], ?_, ?_, ?_⟩ <;>
        simp [dispatchError, hl, hinv]
  | some strm =>
      refine ⟨by simp [dispatchError, hl], ?_, ?_, ?_⟩
      · intro q hq
        simp only [dispatchError, hl] at hq ⊢
        exact hinv q (mem_sremove hq)
      · intro s
        simp [dispatchError, hl]
      · intro s hs
        simp only [dispatchError, hl, List.mem_cons, List.mem_singleton] at hs
        rcases hs with h1 | h1 | h1
        · cases h1
        · injection h1 with h2
          subst h2
          exact hinv _ (slookup_mem hl)
        · simp at h1

theorem dispatchInvoke_noRaise_isOk (w : WState) (sid : Nat) (ev : String) :
    ∃ r, dispatchInvoke InvokeFail.noRaise w sid ev = Except.ok r := by
  by_cases hev : ev ∈ w.handlers <;> simp [dispatchInvoke, hev]

theorem dispatchInvoke_noRaise_step (w : WState) (sid : Nat) (ev : String)
    (w1 : WState) (evts : List Evt)
    (h : dispatchInvoke InvokeFail.noRaise w sid ev = Except.ok (w1, evts)) :
    w1.maxSession = w.maxSession ∧
    (∀ q ∈ w1.sessions, q = (sid, Stream.init) ∨ q ∈ w.sessions) ∧
    (∀ s, Evt.created s ∈ evts → s = sid) ∧
    (∀ s, Evt.removed s ∉ evts) := by
  by_cases hev : ev ∈ w.handlers
  · simp only [dispatchInvoke, hev, if_true, Except.ok.injEq, Prod.mk.injEq] at h
    obtain ⟨hw, he⟩ := h
    subst hw
    subst he
    refine ⟨rfl, ?_, ?_, ?_⟩
    · intro q hq
      exact mem_sinsert hq
    · intro s hs
      simp only [List.mem_cons, List.mem_singleton] at hs
      rcases hs with h1 | h1 | h1
      · cases h1
      · injection h1
      · simp at h1
    · intro s hs
      simp at hs
  · simp only [dispatchInvoke, hev, if_false, Except.ok.injEq, Prod.mk.injEq] at h
    obtain ⟨hw, he⟩ := h
    subst hw
    subst he
    refine ⟨rfl, ?_, ?_, ?_⟩
    · intro q hq
      exact Or.inr hq
    · intro s hs
      simp at hs
    · intro s hs
      simp at hs

theorem sessInv_same (w w' : WState) (hmax : w'.maxSession = w.maxSession)
    (hsess : w'.sessions = w.sessions) (hinv : SessInv w) : SessInv w' := by
  intro q hq
  rw [hmax]
  exact hinv q (hsess ▸ hq)

theorem feedV1_step (w : WState) (m : Msg1) (hinv : SessInv w) :
    w.maxSession ≤ (feedMessageV1 w m).1.maxSession ∧
    SessInv (feedMessageV1 w m).1 ∧
    (∀ s, Evt.created s ∈ (feedMessageV1 w m).2 → w.maxSession < s) ∧
    (∀ s, Evt.removed s ∈ (feedMessageV1 w m).2 → s ≤ w.maxSession) := by
  by_cases hs1 : m.session = 1
  · by_cases hhb : m.typeId = RPCv1.HEARTBEAT
    · have hfeed : feedMessageV1 w m = (dispatchHeartbeat w, [Evt.dispHeartbeat]) := by
        simp [feedMessageV1, hs1, hhb, RPCv1.HEARTBEAT, RPCv1.TERMINATE, RPCv1.INVOKE, RPCv1.WRITE, RPCv1.ERROR, RPCv1.CLOSE]
      rw [hfeed]
      refine ⟨Nat.le_refl _, sessInv_same w _ rfl rfl hinv, ?_, ?_⟩ <;>
        intro s hs <;> simp at hs
    · by_cases htm : m.typeId = RPCv1.TERMINATE
      · have hfeed : feedMessageV1 w m
            = (dispatchTerminate w (getArgNat m.payload 0) (getArgStr m.payload 1),
               [Evt.dispTerminate]) := by
          simp [feedMessageV1, hs1, hhb, htm, RPCv1.HEARTBEAT, RPCv1.TERMINATE, RPCv1.INVOKE, RPCv1.WRITE, RPCv1.ERROR, RPCv1.CLOSE]
        rw [hfeed]
        refine ⟨Nat.le_refl _, sessInv_same w _ rfl rfl hinv, ?_, ?_⟩ <;>
          intro s hs <;> simp at hs
      · have hhb1 : ¬ m.typeId = (1 : Nat) := hhb
        have htm1 : ¬ m.typeId = (2 : Nat) := htm
        have hfeed : feedMessageV1 w m = (w, []) := by
          simp [feedMessageV1, hs1, hhb1, htm1, RPCv1.HEARTBEAT, RPCv1.TERMINATE, RPCv1.INVOKE, RPCv1.WRITE, RPCv1.ERROR, RPCv1.CLOSE]
        rw [hfeed]
        refine ⟨Nat.le_refl _, hinv, ?_, ?_⟩ <;> intro s hs <;> simp at hs
  · by_cases hlt : w.maxSession < m.session
    · by_cases hti : m.typeId = RPCv1.INVOKE
      · obtain ⟨⟨wr, evr⟩, hr⟩ :=
          dispatchInvoke_noRaise_isOk { w with maxSession := m.session }
            m.session (getArgStr m.payload 0)
        have hfeed : feedMessageV1 w m = (wr, evr) := by
          simp [feedMessageV1, hs1, hlt, hti, hr, RPCv1.HEARTBEAT, RPCv1.TERMINATE, RPCv1.INVOKE, RPCv1.WRITE, RPCv1.ERROR, RPCv1.CLOSE]
        obtain ⟨hmax, hsess, hcr, hrm⟩ :=
          dispatchInvoke_noRaise_step _ _ _ _ _ hr
        rw [hfeed]
        refine ⟨?_, ?_, ?_, ?_⟩
        · rw [hmax]
          exact Nat.le_of_lt hlt
        · intro q hq
          rcases hsess q hq with h1 | h1
          · rw [h1, hmax]
          · calc q.1 ≤ w.maxSession := hinv q h1
              _ ≤ wr.maxSession := by rw [hmax]; exact Nat.le_of_lt hlt
        · intro s hs
          rw [hcr s hs]
          exact hlt
        · intro s hs
          exact absurd hs (hrm s)
      · have hti1 : ¬ m.typeId = (3 : Nat) := hti
        have hfeed : feedMessageV1 w m = (w, []) := by
          simp [feedMessageV1, hs1, hlt, hti1, RPCv1.HEARTBEAT, RPCv1.TERMINATE, RPCv1.INVOKE, RPCv1.WRITE, RPCv1.ERROR, RPCv1.CLOSE]
        rw [hfeed]
        refine ⟨Nat.le_refl _, hinv, ?_, ?_⟩ <;> intro s hs <;> simp at hs
    · by_cases hwA : m.typeId = RPCv1.WRITE
      · have hfeed : feedMessageV1 w m
            = dispatchChunk w m.session (getArgStr m.payload 0) := by
          simp [feedMessageV1, hs1, hlt, hwA, RPCv1.HEARTBEAT, RPCv1.TERMINATE, RPCv1.INVOKE, RPCv1.WRITE, RPCv1.ERROR, RPCv1.CLOSE]
        obtain ⟨h1, h2, h3, h4⟩ :=
          dispatchChunk_step w m.session (getArgStr m.payload 0) hinv
        rw [hfeed]
        exact ⟨Nat.le_of_eq h1.symm, h2, fun s hs => absurd hs (h3 s),
               fun s hs => absurd hs (h4 s)⟩
      · by_cases hwC : m.typeId = RPCv1.CLOSE
        · have hfeed : feedMessageV1 w m = dispatchChoke w m.session := by
            simp [feedMessageV1, hs1, hlt, hwA, hwC, RPCv1.HEARTBEAT, RPCv1.TERMINATE, RPCv1.INVOKE, RPCv1.WRITE, RPCv1.ERROR, RPCv1.CLOSE]
          obtain ⟨h1, h2, h3, h4⟩ := dispatchChoke_step w m.session hinv
          rw [hfeed]
          exact ⟨Nat.le_of_eq h1.symm, h2, fun s hs => absurd hs (h3 s), h4⟩
        · by_cases hwE : m.typeId = RPCv1.ERROR
          · have hfeed : feedMessageV1 w m
                = ((dispatchError w m.session (getArgNat m.payload 0)
                      (getArgStr m.payload 1)).1,
                   (dispatchError w m.session (getArgNat m.payload 0)
                      (getArgStr m.payload 1)).2.2) := by
              simp [feedMessageV1, hs1, hlt, hwA, hwC, hwE, RPCv1.HEARTBEAT, RPCv1.TERMINATE, RPCv1.INVOKE, RPCv1.WRITE, RPCv1.ERROR, RPCv1.CLOSE]
            obtain ⟨h1, h2, h3, h4⟩ :=
              dispatchError_step w m.session (getArgNat m.payload 0)
                (getArgStr m.payload 1) hinv
            rw [hfeed]
            exact ⟨Nat.le_of_eq h1.symm, h2, fun s hs => absurd hs (h3 s), h4⟩
          · have hwA1 : ¬ m.typeId = (4 : Nat) := hwA
            have hwC1 : ¬ m.typeId = (6 : Nat) := hwC
            have hwE1 : ¬ m.typeId = (5 : Nat) := hwE
            have hfeed : feedMessageV1 w m = (w, []) := by
              simp [feedMessageV1, hs1, hlt, hwA1, hwC1, hwE1, RPCv1.HEARTBEAT, RPCv1.TERMINATE, RPCv1.INVOKE, RPCv1.WRITE, RPCv1.ERROR, RPCv1.CLOSE]
            rw [hfeed]
            refine ⟨Nat.le_refl _, hinv, ?_, ?_⟩ <;> intro s hs <;> simp at hs

theorem runV1_cons (w : WState) (m : Msg1) (ms : List Msg1) :
    runV1 w (m :: ms)
      = ((runV1 (feedMessageV1 w m).1 ms).1,
         (feedMessageV1 w m).2 ++ (runV1 (feedMessageV1 w m).1 ms).2) := rfl

theorem runV1_no_old_created (ms : List Msg1) :
    ∀ (w : WState) (s : Nat), SessInv w → s ≤ w.maxSession →
      Evt.created s ∉ (runV1 w ms).2 := by
  induction ms with
  | nil =>
      intro w s hinv hle
      simp [runV1]
  | cons m ms ih =>
      intro w s hinv hle hmem
      rw [runV1_cons] at hmem
      obtain ⟨hmax, hinv1, hcr, hrm⟩ := feedV1_step w m hinv
      rcases List.mem_append.mp hmem with h1 | h1
      · exact absurd hle (Nat.not_le_of_lt (hcr s h1))
      · exact ih (feedMessageV1 w m).1 s hinv1 (Nat.le_trans hle hmax) h1

theorem runV1_no_reuse_aux (ms : List Msg1) :
    ∀ (w : WState), SessInv w →
      ∀ (a b : List Evt) (s : Nat),
        (runV1 w ms).2 = a ++ Evt.removed s :: b → Evt.created s ∉ b := by
  induction ms with
  | nil =>
      intro w hinv a b s h
      rw [runV1] at h
      exact absurd (List.append_eq_nil.mp h.symm).2 (List.cons_ne_nil _ _)
  | cons m ms ih =>
      intro w hinv a b s h
      rw [runV1_cons] at h
      obtain ⟨hmax, hinv1, hcr, hrm⟩ := feedV1_step w m hinv
      rcases append_cons_split h with ⟨b1, h1, h2⟩ | ⟨a1, h1, h2⟩
      · -- the removal happened inside this step
        have hrem : Evt.removed s ∈ (feedMessageV1 w m).2 := by
          rw [h1]
          exact List.mem_append.mpr (Or.inr (List.mem_cons_self _ _))
        have hle : s ≤ w.maxSession := hrm s hrem
        intro hmem
        rw [h2] at hmem
        rcases List.mem_append.mp hmem with h3 | h3
        · have : Evt.created s ∈ (feedMessageV1 w m).2 := by
            rw [h1]
            exact List.mem_append.mpr
              (Or.inr (List.mem_cons_of_mem _ h3))
          exact absurd hle (Nat.not_le_of_lt (hcr s this))
        · exact runV1_no_old_created ms (feedMessageV1 w m).1 s hinv1
            (Nat.le_trans hle hmax) h3
      · -- the removal happened in the remaining messages
        exact ih (feedMessageV1 w m).1 hinv1 a1 b s h2

/-! ## Claims -/

/-- C1: for every session created by an INVOKE, the handler-completion trap
guarantees exactly one terminal outbound frame (ERROR or CHOKE) on the
response, whatever the handler did and however it ended; the response ends
up closed; and when the handler raised `e` on a not-yet-closed response, the
trap emits exactly `ERROR(EUNCAUGHTEXCEPTION, str(e))`. -/
theorem invoke_trap_exactly_one_terminal (ops : List HOp)
    (outcome : Except String Unit) :
    terminalCount (trap outcome (applyHOps RespStream.init ops)).emitted = 1 ∧
    (trap outcome (applyHOps RespStream.init ops)).closed = true ∧
    (∀ e, outcome = Except.error e →
        (applyHOps RespStream.init ops).closed = false →
        (trap outcome (applyHOps RespStream.init ops)).emitted
          = (applyHOps RespStream.init ops).emitted
              ++ [ROut.werror EUNCAUGHTEXCEPTION e]) := by
  have hinv := respInv_applyHOps ops RespStream.init respInv_init
  obtain ⟨h1, h2⟩ := trap_closes outcome (applyHOps RespStream.init ops) hinv
  refine ⟨h1, h2, ?_⟩
  intro e he hc
  subst he
  simp [trap, RespStream.error, hc]

/-- C1 witness: a handler that raised "boom" without touching its fresh
response leaves exactly one terminal frame, the EUNCAUGHTEXCEPTION error. -/
theorem invoke_trap_exactly_one_terminal_witness :
    terminalCount (trap (Except.error "boom") (applyHOps RespStream.init [])).emitted = 1 ∧
    (trap (Except.error "boom") (applyHOps RespStream.init [])).emitted
      = [ROut.werror EUNCAUGHTEXCEPTION "boom"] := by
  obtain ⟨h1, h2, h3⟩ := invoke_trap_exactly_one_terminal [] (Except.error "boom")
  exact ⟨h1, by simpa using h3 "boom" rfl rfl⟩

/-- C3: `do_heartbeat` arms the event-loop disown timer and then emits a
HEARTBEAT frame; a received HEARTBEAT (both wire versions) is dispatched to
`_dispatch_heartbeat`, which notifies the watchdog-thread disown timer and
stops the event-loop disown timer. -/
theorem heartbeat_timer_symmetry (w : WState) (p : List Arg) :
    do_heartbeat w = sendHeartbeatMsg (disownTimerStart w) ∧
    (do_heartbeat w).disownArmed = true ∧
    (do_heartbeat w).outbox = w.outbox ++ [OutMsg.heartbeatOut] ∧
    feedMessageV1 w ⟨1, RPCv1.HEARTBEAT, p⟩
      = (dispatchHeartbeat w, [Evt.dispHeartbeat]) ∧
    feedMessageV0 w ⟨RPC0.heartbeat, 1, p⟩
      = Except.ok (dispatchHeartbeat w, [Evt.dispHeartbeat]) ∧
    (dispatchHeartbeat w).disownArmed = false ∧
    (dispatchHeartbeat w).watchdogNotified = true :=
  ⟨rfl, rfl, rfl, rfl, rfl, rfl, rfl⟩

/-- C4 counterexample: an INVOKE for an event with no registered handler
(session 5, event "foo", empty handler table) takes the fallback path: the
ENOHANDLER error is emitted but no entry is inserted into the session table,
contradicting the claim that the request stream is inserted "including when
the fallback handler is used". -/
theorem fallback_no_table_entry_cex :
    dispatchInvoke InvokeFail.noRaise (initWorker []) 5 "foo"
      = Except.ok ((⟨0, [], [], false, false,
            [OutMsg.errorOut 5 ENOHANDLER "there is no handler for event foo"],
            false⟩ : WState), [Evt.dispInvoke 5]) ∧
    slookup ((⟨0, [], [], false, false,
        [OutMsg.errorOut 5 ENOHANDLER "there is no handler for event foo"],
        false⟩ : WState).sessions) 5 = none :=
  ⟨rfl, rfl⟩

/-- C4 amended: `_dispatch_invoke` inserts the request stream into the
session table only when the event has a registered handler; on the fallback
path nothing is inserted and the ENOHANDLER error is emitted instead. -/
theorem invoke_registration_only_with_handler (w : WState) (s : Nat)
    (ev : String) :
    (ev ∈ w.handlers →
        dispatchInvoke InvokeFail.noRaise w s ev
          = Except.ok ({ w with sessions := sinsert w.sessions s Stream.init },
                       [Evt.dispInvoke s, Evt.created s]) ∧
        slookup (sinsert w.sessions s Stream.init) s = some Stream.init) ∧
    (ev ∉ w.handlers →
        dispatchInvoke InvokeFail.noRaise w s ev
          = Except.ok ({ w with outbox := w.outbox ++
                [OutMsg.errorOut s ENOHANDLER
                   ("there is no handler for event " ++ ev)] },
              [Evt.dispInvoke s])) := by
  constructor
  · intro hev
    exact ⟨by simp [dispatchInvoke, hev], slookup_sinsert w.sessions s Stream.init⟩
  · intro hev
    simp [dispatchInvoke, hev]

/-- C4 amended witness: with "echo" registered, INVOKE(7, "echo") registers
session 7 in the table. -/
theorem invoke_registration_only_with_handler_witness :
    dispatchInvoke InvokeFail.noRaise (initWorker ["echo"]) 7 "echo"
      = Except.ok ({ initWorker ["echo"] with
            sessions := sinsert (initWorker ["echo"]).sessions 7 Stream.init },
          [Evt.dispInvoke 7, Evt.created 7]) ∧
    slookup (sinsert (initWorker ["echo"]).sessions 7 Stream.init) 7
      = some Stream.init :=
  (invoke_registration_only_with_handler (initWorker ["echo"]) 7 "echo").1
    (by decide)

/-- C5 counterexample: enqueue `done()` and then `push("x")`; the first read
consumes the EndOfStream terminal, yet the very next read yields the item
"x" — the stream never latches closed (the `_done` flag is unused), so the
claim "no further item is ever read after a terminal is consumed" fails. -/
theorem stream_read_after_terminal_cex :
    (Stream.init.done.push "x").get
      = some (ReadRes.raisedChoke, Stream.mk [RItem.chunk "x"] false) ∧
    (Stream.mk [RItem.chunk "x"] false).get
      = some (ReadRes.value "x", Stream.mk [] false) :=
  ⟨rfl, rfl⟩

/-- C5 amended: the no-read-past-terminal property holds exactly when no
item is enqueued after the terminal: if `done()` is the last producer call
(after any number of pushes), the reads return the pushed items, then the
EndOfStream, and every later read finds an empty queue and never yields. -/
theorem stream_drained_when_terminal_last (ds : List String) :
    ((ds.foldl Stream.push Stream.init).done).getN (ds.length + 1)
      = (ds.map ReadRes.value ++ [ReadRes.raisedChoke], Stream.mk [] false) ∧
    (((ds.foldl Stream.push Stream.init).done).getN (ds.length + 1)).2.get
      = none := by
  have hq : (ds.foldl Stream.push Stream.init).done
      = Stream.mk (ds.map RItem.chunk ++ [RItem.choke]) false := by
    rw [foldl_push_queue]
    simp [Stream.done, Stream.init]
  have hlen : ds.length + 1 = (ds.map RItem.chunk ++ [RItem.choke]).length := by
    simp
  rw [hq, hlen, getN_full_drain]
  constructor
  · congr 1
    simp [itemRes]
  · rfl

/-- C6: when the dispatcher handles an inbound ERROR for a live session
whose stream the handler has fully drained, the handler's next read raises
the stored error and the read after that raises EndOfStream — both items
are delivered in that order without loss. -/
theorem error_then_choke_consumable (w : WState) (sid c : Nat) (rsn : String)
    (strm : Stream) (hs : slookup w.sessions sid = some strm)
    (hq : strm.queue = []) :
    (dispatchError w sid c rsn).2.1 = some ((strm.error c rsn).done) ∧
    ((strm.error c rsn).done).get
      = some (ReadRes.raisedReqError c rsn,
              Stream.mk [RItem.choke] strm.doneFlag) ∧
    (Stream.mk [RItem.choke] strm.doneFlag).get
      = some (ReadRes.raisedChoke, Stream.mk [] strm.doneFlag) := by
  refine ⟨?_, ?_, ?_⟩
  · simp [dispatchError, hs]
  · simp [Stream.error, Stream.done, Stream.get, hq]
  · simp [Stream.get]

/-- C6 witness: session 7 with an empty stream; ERROR(42, "oops") delivers
the error, then EndOfStream. -/
theorem error_then_choke_consumable_witness :
    (dispatchError (⟨0, [(7, Stream.init)], [], false, false, [], false⟩ : WState)
        7 42 "oops").2.1 = some ((Stream.init.error 42 "oops").done) ∧
    ((Stream.init.error 42 "oops").done).get
      = some (ReadRes.raisedReqError 42 "oops", Stream.mk [RItem.choke] false) ∧
    (Stream.mk [RItem.choke] false).get
      = some (ReadRes.raisedChoke, Stream.mk [] false) :=
  error_then_choke_consumable _ 7 42 "oops" Stream.init rfl rfl

/-- C2: v1 dispatch rules for a non-control message (session ≠ 1).  On an
unseen session (`max_session < session`) only INVOKE is dispatched — it
raises `max_session` to the session id and runs the invoke dispatch — and
any other type id is dropped with no state change; on a seen session
(`session ≤ max_session`) WRITE is dispatched as chunk, CLOSE as choke,
ERROR as error, and every other type id is dropped. -/
theorem v1_feed_dispatch_rules (w : WState) (s t : Nat) (p : List Arg)
    (hs : s ≠ 1) :
    (w.maxSession < s → t = RPCv1.INVOKE →
        (feedMessageV1 w ⟨s, t, p⟩).1.maxSession = s ∧
        Evt.dispInvoke s ∈ (feedMessageV1 w ⟨s, t, p⟩).2) ∧
    (w.maxSession < s → t ≠ RPCv1.INVOKE →
        feedMessageV1 w ⟨s, t, p⟩ = (w, [])) ∧
    (s ≤ w.maxSession →
        (t = RPCv1.WRITE →
            feedMessageV1 w ⟨s, t, p⟩ = dispatchChunk w s (getArgStr p 0)) ∧
        (t = RPCv1.CLOSE → feedMessageV1 w ⟨s, t, p⟩ = dispatchChoke w s) ∧
        (t = RPCv1.ERROR →
            feedMessageV1 w ⟨s, t, p⟩
              = ((dispatchError w s (getArgNat p 0) (getArgStr p 1)).1,
                 (dispatchError w s (getArgNat p 0) (getArgStr p 1)).2.2)) ∧
        (t ≠ RPCv1.WRITE → t ≠ RPCv1.CLOSE → t ≠ RPCv1.ERROR →
            feedMessageV1 w ⟨s, t, p⟩ = (w, []))) := by
  refine ⟨?_, ?_, ?_⟩
  · intro hlt hti
    subst hti
    by_cases hev : getArgStr p 0 ∈ w.handlers <;>
      simp [feedMessageV1, hs, hlt, dispatchInvoke, hev,
            RPCv1.INVOKE]
  · intro hlt hti
    simp [feedMessageV1, hs, hlt, hti]
  · intro hle
    have hnlt : ¬ w.maxSession < s := not_lt.mpr hle
    refine ⟨?_, ?_, ?_, ?_⟩
    · intro ht
      subst ht
      simp [feedMessageV1, hs, hnlt, RPCv1.WRITE, RPCv1.CLOSE, RPCv1.ERROR]
    · intro ht
      subst ht
      simp [feedMessageV1, hs, hnlt, RPCv1.WRITE, RPCv1.CLOSE, RPCv1.ERROR]
    · intro ht
      subst ht
      simp [feedMessageV1, hs, hnlt, RPCv1.WRITE, RPCv1.CLOSE, RPCv1.ERROR]
    · intro htA htC htE
      have htA1 : ¬ t = (4 : Nat) := htA
      have htC1 : ¬ t = (6 : Nat) := htC
      have htE1 : ¬ t = (5 : Nat) := htE
      simp [feedMessageV1, hs, hnlt, htA1, htC1, htE1,
            RPCv1.WRITE, RPCv1.CLOSE, RPCv1.ERROR]

/-- C2 witness: with `max_session = 0`, a WRITE on unseen session 5 is
dropped without creating a session or changing any state. -/
theorem v1_feed_dispatch_rules_witness :
    feedMessageV1 (initWorker []) ⟨5, RPCv1.WRITE, [Arg.argStr "d"]⟩
      = (initWorker [], []) :=
  (v1_feed_dispatch_rules (initWorker []) 5 RPCv1.WRITE [Arg.argStr "d"]
      (by decide)).2.1 (by decide) (by decide)

/-- C7 counterexample: in v0 the dispatcher performs no session-ordering
check, so after INVOKE(2) and CHOKE(2) a second INVOKE(2) recreates the
removed session: the event trace contains `created 2` after `removed 2`. -/
theorem v0_session_reuse_cex :
    (runV0 (initWorker ["ev"])
        [⟨RPC0.invoke, 2, [Arg.argStr "ev"]⟩, ⟨RPC0.choke, 2, []⟩,
         ⟨RPC0.invoke, 2, [Arg.argStr "ev"]⟩]).2
      = [Evt.dispInvoke 2, Evt.created 2, Evt.dispChoke 2]
          ++ Evt.removed 2 :: [Evt.dispInvoke 2, Evt.created 2] ∧
    Evt.created 2 ∈ [Evt.dispInvoke 2, Evt.created 2] := by
  exact ⟨by decide, by decide⟩

/-- C7 amended: in protocol v1 no session id is ever reused once its session
has been removed — in any run from the initial worker state, no `created s`
event follows a `removed s` event. -/
theorem v1_no_session_reuse (handlers : List String) (msgs : List Msg1)
    (a b : List Evt) (s : Nat)
    (h : (runV1 (initWorker handlers) msgs).2 = a ++ Evt.removed s :: b) :
    Evt.created s ∉ b := by
  refine runV1_no_reuse_aux msgs (initWorker handlers) ?_ a b s h
  intro q hq
  simp [initWorker] at hq

/-- C7 amended witness: an INVOKE(2)/CLOSE(2) run removes session 2 with an
empty tail, and no later creation of 2 occurs. -/
theorem v1_no_session_reuse_witness :
    Evt.created 2 ∉ ([] : List Evt) :=
  v1_no_session_reuse ["ev"]
    [⟨2, RPCv1.INVOKE, [Arg.argStr "ev"]⟩, ⟨2, RPCv1.CLOSE, []⟩]
    [Evt.dispInvoke 2, Evt.created 2, Evt.dispChoke 2] [] 2 (by decide)

/-- C8: evaluation of the constructor guard.  The source raises only for
`heartbeat_timeout < disown_timeout`, so the boundary configuration with
equal timeouts is accepted, although the guard's own error message
("heartbeat timeout must be greater than disown") and the spec demand its
rejection; a strictly smaller heartbeat timeout is rejected as specified. -/
theorem init_guard_accepts_equal_timeouts :
    basicWorkerInitRaises 5 5 = false ∧
    basicWorkerInitRaises 6 5 = true ∧
    basicWorkerInitRaises 5 6 = false := by
  decide

/-- C9 counterexample: event "ev" is registered; starting the handler task
raises after `self.sessions[msg.session] = request` has run.  The except
clause emits EINVFAILED, but the session stays registered in the table,
contradicting "the session is not registered". -/
theorem invoke_setup_failure_cex :
    dispatchInvoke InvokeFail.startRaise (initWorker ["ev"]) 2 "ev"
      = Except.ok ((⟨0, [(2, Stream.init)], ["ev"], false, false,
            [OutMsg.errorOut 2 EINVFAILED "failed to invoke"], false⟩ : WState),
          [Evt.dispInvoke 2, Evt.created 2]) ∧
    slookup ([(2, Stream.init)] : List (Nat × Stream)) 2 = some Stream.init :=
  ⟨rfl, rfl⟩

/-- C9 amended: if stream construction raises, the exception propagates out
of `_dispatch_invoke` with no EINVFAILED and no registration; if starting
the handler task raises inside the `try`, EINVFAILED is emitted on the
response, and the session remains registered exactly when the event had a
registered handler (the insert precedes the failure and is not rolled
back). -/
theorem invoke_setup_failure_behavior (w : WState) (s : Nat) (ev : String) :
    dispatchInvoke InvokeFail.ctorRaise w s ev = Except.error () ∧
    (∀ w1 evts,
        dispatchInvoke InvokeFail.startRaise w s ev = Except.ok (w1, evts) →
        OutMsg.errorOut s EINVFAILED "failed to invoke" ∈ w1.outbox ∧
        (ev ∈ w.handlers → slookup w1.sessions s = some Stream.init) ∧
        (ev ∉ w.handlers → w1.sessions = w.sessions)) := by
  refine ⟨rfl, ?_⟩
  intro w1 evts h
  by_cases hev : ev ∈ w.handlers
  · simp [dispatchInvoke, hev] at h
    obtain ⟨hw, he⟩ := h
    subst hw
    refine ⟨by simp, fun _ => ?_, fun hne => absurd hev hne⟩
    simp [slookup_sinsert]
  · simp [dispatchInvoke, hev] at h
    obtain ⟨hw, he⟩ := h
    subst hw
    exact ⟨by simp, fun hmem => absurd hmem hev, fun _ => rfl⟩

/-- C9 amended witness: concrete instance of the startRaise case with a
registered handler — EINVFAILED emitted and session 2 still in the table. -/
theorem invoke_setup_failure_behavior_witness :
    dispatchInvoke InvokeFail.ctorRaise (initWorker ["ev"]) 2 "ev"
      = Except.error () ∧
    OutMsg.errorOut 2 EINVFAILED "failed to invoke"
      ∈ ((⟨0, [(2, Stream.init)], ["ev"], false, false,
          [OutMsg.errorOut 2 EINVFAILED "failed to invoke"], false⟩ : WState)).outbox ∧
    slookup ((⟨0, [(2, Stream.init)], ["ev"], false, false,
        [OutMsg.errorOut 2 EINVFAILED "failed to invoke"], false⟩ : WState)).sessions 2
      = some Stream.init := by
  obtain ⟨h1, h2⟩ := invoke_setup_failure_behavior (initWorker ["ev"]) 2 "ev"
  obtain ⟨h3, h4, h5⟩ := h2 _ _ rfl
  exact ⟨h1, h3, h4 (by decide)⟩

/-- C10 counterexample: a v0 ERROR message for live session 5 is not
dispatched to the per-session error path: `feed_message` raises (the
dispatcher dictionary has no ERROR entry), `on_message` swallows the
exception, and the session remains in the table untouched. -/
theorem v0_error_not_dispatched_cex :
    feedMessageV0 (⟨0, [(5, Stream.init)], [], false, false, [], false⟩ : WState)
        ⟨RPC0.errorK, 5, [Arg.argNat 42, Arg.argStr "boom"]⟩ = Except.error () ∧
    runV0 (⟨0, [(5, Stream.init)], [], false, false, [], false⟩ : WState)
        [⟨RPC0.errorK, 5, [Arg.argNat 42, Arg.argStr "boom"]⟩]
      = ((⟨0, [(5, Stream.init)], [], false, false, [], false⟩ : WState), []) ∧
    slookup ([(5, Stream.init)] : List (Nat × Stream)) 5 = some Stream.init :=
  ⟨rfl, rfl, rfl⟩

/-- C10 amended: the v0 worker does not accept an inbound ERROR message —
`feed_message` raises on it because the dispatcher dictionary has no entry
for `RPC.ERROR` — but the exception is caught in `on_message`, so the
worker's state is untouched and processing of subsequent messages
continues without terminating the worker. -/
theorem v0_error_raises_and_continues (w : WState) (sess : Nat) (p : List Arg)
    (rest : List Msg0) :
    feedMessageV0 w ⟨RPC0.errorK, sess, p⟩ = Except.error () ∧
    runV0 w (⟨RPC0.errorK, sess, p⟩ :: rest) = runV0 w rest :=
  ⟨rfl, rfl⟩

end Cocaine
